import Mathlib

/-!
Shallow embedding of the drplr CLI's core modules, translated from the
repository's JavaScript sources:

- `lib/api-utils.js` : the error classifier (`parseApiError`), the privacy
  update helper (`updateDropPrivacy`), the best-effort cleanup
  (`safeDeleteDrop`), and the privacy reconciliation engine
  (`handlePrivateDropCreation`);
- `lib/client.js` : `createClient`, the authentication gate;
- `lib/commands/link.js` : `createLink`, the link-drop creator.

Network calls on the Droplr SDK client are modelled by an oracle record
`Client` whose fields give the outcome of each `drops.create`,
`drops.update` and `drops.delete` call; a function that performs calls
returns, alongside its result, the list of calls it issued (`ApiCall`),
so that properties about call counts ("zero update calls", "deleted
exactly once") are statable.  JavaScript exceptions are modelled with
`Except`; thrown error values with the inductive `JsError`.
-/

namespace Drplr

/-- JS truthiness of an optional string field: `undefined` (modelled as
`none`) and the empty string are falsy, every other string is truthy. -/
def truthy : Option String → Bool
  | none => false
  | some s => s ≠ ""

/-- One entry of the array-shaped validation payload, `{field, messages}`;
the `messages` key may be absent (`none`). -/
structure ValidationEntry where
  field : String
  messages : Option (List String)
deriving DecidableEq, Repr

/-- The value attached to one field of the object-shaped validation
payload: either a plain string or an array of strings
(JS `Array.isArray(messages) ? messages.join(', ') : messages`). -/
inductive MsgVal where
  | single (s : String)
  | list (l : List String)
deriving DecidableEq, Repr

/-- The `errors` value of an API error response: array format (upload
errors) or object format (link errors), as distinguished by
`Array.isArray` / `typeof errors === 'object'` in `parseApiError`. -/
inductive ErrorsPayload where
  | arrayFormat (entries : List ValidationEntry)
  | objectFormat (entries : List (String × MsgVal))
deriving DecidableEq, Repr

/-- The `data` object of an error response (`error.response.data`). -/
structure ResponseData where
  errors : Option ErrorsPayload := none
  message : Option String := none
deriving DecidableEq, Repr

/-- The `response` object carried by an SDK error (`error.response`). -/
structure ErrResponse where
  data : Option ResponseData := none
  status : Option Nat := none
  statusText : String := ""
deriving DecidableEq, Repr

/-- A JavaScript error value as seen by `parseApiError`: either an
`UploadError` of this system (lib/errors.js: message plus optional
`statusCode`), or a raw SDK/network error with an optional `response`
object and a `message` string. -/
inductive JsError where
  | uploadError (message : String) (statusCode : Option Nat)
  | raw (response : Option ErrResponse) (message : String)
deriving DecidableEq, Repr

/-- Optional chaining `error.response?.data?.errors`. -/
def responseErrors : Option ErrResponse → Option ErrorsPayload
  | some r =>
    match r.data with
    | some d => d.errors
    | none => none
  | none => none

/-- Optional chaining `error.response?.data?.message` used as a truthy
guard: an absent or empty message yields `none`. -/
def responseMessage : Option ErrResponse → Option String
  | some r =>
    match r.data with
    | some d =>
      match d.message with
      | some m => if m = "" then none else some m
      | none => none
    | none => none
  | none => none

/-- Optional chaining `error.response?.status` used as a truthy guard
(status `0` is falsy); pairs the status with the response's `statusText`
since the two are rendered together. -/
def responseStatus : Option ErrResponse → Option (Nat × String)
  | some r =>
    match r.status with
    | some n => if n = 0 then none else some (n, r.statusText)
    | none => none
  | none => none

/-- Character class of the regex metacharacter `\s` in JavaScript
(restricted to ASCII, which is all the repository's messages use). -/
def isJsSpace (c : Char) : Bool :=
  c = ' ' ∨ c = '\t' ∨ c = '\n' ∨ c = '\r' ∨ c = '\x0b' ∨ c = '\x0c'

/-- Scans for the closing quote of the lazy regex fragment `.*?"`: the
first `'"'` terminates the scan, a line terminator (which `.` does not
match) makes the whole pattern fail. Returns the characters after the
closing quote. -/
def findCloseQuote : List Char → Option (List Char)
  | [] => none
  | c :: cs =>
    if c = '"' then some cs
    else if c = '\n' ∨ c = '\r' then none
    else findCloseQuote cs

/-- Model of `msg.replace(/^".*?"\s*/, '')` in `parseApiError`: strip a
leading quoted fragment and the whitespace after it, if present;
otherwise leave the string unchanged. -/
def stripQuotedLead (s : String) : String :=
  match s.data with
  | '"' :: rest =>
    match findCloseQuote rest with
    | some tail => String.mk (tail.dropWhile isJsSpace)
    | none => s
  | _ => s

/-- Renders one array-format validation entry to its message lines:
`err.messages || ['Invalid value']` (the default applies only when the
key is absent), each line being
`"\n    * " + field + ": " + strippedMessage`. -/
def renderValidationEntry (e : ValidationEntry) : List String :=
  (e.messages.getD ["Invalid value"]).map
    (fun msg => "\n    * " ++ e.field ++ ": " ++ stripQuotedLead msg)

/-- Renders one object-format validation field:
`Array.isArray(messages) ? messages.join(', ') : messages`. -/
def renderMsgVal : MsgVal → String
  | .single s => s
  | .list l => String.intercalate ", " l

/-- The error classifier `parseApiError(error, operation)` of
lib/api-utils.js: an `UploadError` passes through unchanged; otherwise an
array-format validation payload, an object-format validation payload, a
single message, an HTTP status, or the generic fallback produce a fresh
`UploadError` whose message is prefixed with `"<operation> failed"`. The
JS default `operation = 'Operation'` is passed explicitly by callers
here. -/
def parseApiError (error : JsError) (operation : String) : JsError :=
  match error with
  | .uploadError m sc => .uploadError m sc
  | .raw response message =>
    match responseErrors response with
    | some (.arrayFormat entries) =>
      .uploadError
        (operation ++ " failed:" ++
          String.join ((entries.map renderValidationEntry).flatten)) none
    | some (.objectFormat entries) =>
      .uploadError
        (operation ++ " failed:\n" ++
          String.intercalate "\n"
            (entries.map (fun p => p.1 ++ ": " ++ renderMsgVal p.2))) none
    | none =>
      match responseMessage response with
      | some m => .uploadError (operation ++ " failed: " ++ m) none
      | none =>
        match responseStatus response with
        | some st =>
          .uploadError
            (operation ++ " failed: " ++ toString st.1 ++ " " ++ st.2) none
        | none => .uploadError (operation ++ " failed: " ++ message) none

/-- The service's view of a drop (`DropResult`): the fields the core
reads or writes. Optional fields model keys a response may omit. -/
structure Drop where
  code : String
  privacy : Option String := none
  title : Option String := none
  shortlink : Option String := none
deriving DecidableEq, Repr

/-- The update payload built by `updateDropPrivacy`: keys `privacy` and
`password` are present only when the corresponding option is truthy. -/
structure DropUpdateData where
  privacy : Option String := none
  password : Option String := none
deriving DecidableEq, Repr

/-- The creation payload built by `createLink`:
`{type: 'LINK', content: url}` plus `title` when provided. -/
structure CreateOptions where
  type : String
  content : String
  title : Option String := none
deriving DecidableEq, Repr

/-- One network call issued against the Droplr SDK client. -/
inductive ApiCall where
  | create (data : CreateOptions)
  | update (code : String) (data : DropUpdateData)
  | delete (code : String)
deriving DecidableEq, Repr

/-- Oracle for the Droplr SDK client: the outcome of each
`drops.create` / `drops.update` / `drops.delete` call as a function of
its arguments. -/
structure Client where
  createResp : CreateOptions → Except JsError Drop
  updateResp : String → DropUpdateData → Except JsError Drop
  deleteResp : String → Except JsError Unit

/-- The `options` object taken by `updateDropPrivacy`. -/
structure UpdateOptions where
  privacy : Option String := none
  password : Option String := none
deriving DecidableEq, Repr

/-- The `options` object taken by `handlePrivateDropCreation` and
`createLink` (privacy, password, title). -/
structure Options where
  privacy : Option String := none
  password : Option String := none
  title : Option String := none
deriving DecidableEq, Repr

/-- The update payload construction in `updateDropPrivacy`
(lib/api-utils.js): `if (options.privacy) updateData.privacy = ...;
if (options.password) updateData.password = ...`. -/
def mkUpdateData (options : UpdateOptions) : DropUpdateData :=
  { privacy := if truthy options.privacy then options.privacy else none
    password := if truthy options.password then options.password else none }

/-- `updateDropPrivacy(client, dropCode, options)` of lib/api-utils.js:
issues one `drops.update` call; on failure the raw error is classified
with operation name `'Privacy update'` before being rethrown. The second
component records the calls made. -/
def updateDropPrivacy (client : Client) (dropCode : String)
    (options : UpdateOptions) : Except JsError Drop × List ApiCall :=
  let updateData := mkUpdateData options
  match client.updateResp dropCode updateData with
  | .ok result => (.ok result, [ApiCall.update dropCode updateData])
  | .error e =>
    (.error (parseApiError e "Privacy update"),
     [ApiCall.update dropCode updateData])

/-- `safeDeleteDrop(client, dropCode)` of lib/api-utils.js: issues one
`drops.delete` call and swallows any error it raises (only a warning is
logged), so it returns `Unit` in both branches. -/
def safeDeleteDrop (client : Client) (dropCode : String) :
    Unit × List ApiCall :=
  match client.deleteResp dropCode with
  | .ok _ => ((), [ApiCall.delete dropCode])
  | .error _ => ((), [ApiCall.delete dropCode])

/-- The privacy reconciliation engine
`handlePrivateDropCreation(client, result, options)` of lib/api-utils.js.
If `options.privacy !== 'PRIVATE'`: a truthy password triggers a
password-only update, then the created drop is returned unchanged (no
call at all when there is no password). Otherwise one corrective update
`{privacy: 'PRIVATE', password}` is issued; on success the created
drop is returned with `privacy` mutated to `'PRIVATE'` (the update
response is discarded); on failure the drop is deleted best-effort and
the classified update error is rethrown. -/
def handlePrivateDropCreation (client : Client) (result : Drop)
    (options : Options) : Except JsError Drop × List ApiCall :=
  if options.privacy ≠ some "PRIVATE" then
    if truthy options.password then
      match updateDropPrivacy client result.code
          { password := options.password } with
      | (.ok _, calls) => (.ok result, calls)
      | (.error e, calls) => (.error e, calls)
    else
      (.ok result, [])
  else
    match updateDropPrivacy client result.code
        { privacy := some "PRIVATE", password := options.password } with
    | (.ok _, calls) =>
      (.ok { result with privacy := some "PRIVATE" }, calls)
    | (.error e, calls) =>
      let del := safeDeleteDrop client result.code
      (.error e, calls ++ del.2)

/-- Tab, line feed and carriage return, which the WHATWG URL parser
removes from its input wherever they occur. -/
def isUrlStrippable (c : Char) : Bool :=
  c = '\t' ∨ c = '\n' ∨ c = '\r'

/-- C0 control characters and space, trimmed from both ends of the URL
parser's input. -/
def isC0OrSpace (c : Char) : Bool := c.toNat ≤ 32

/-- Scheme continuation characters: ASCII alphanumerics, `+`, `-`, `.`. -/
def isSchemeChar (c : Char) : Bool :=
  c.isAlphanum ∨ c = '+' ∨ c = '-' ∨ c = '.'

/-- Reads the scheme of an absolute URL: an ASCII letter, then scheme
characters, then `':'`; returns the scheme letters and the remainder
after the colon, or `none` when the input has no scheme (which, with no
base URL, fails the whole parse). -/
def splitScheme : List Char → Option (List Char × List Char)
  | [] => none
  | c :: cs => if c.isAlpha then go [c] cs else none
where
  go (acc : List Char) : List Char → Option (List Char × List Char)
    | [] => none
    | c :: cs =>
      if c = ':' then some (acc.reverse, cs)
      else if isSchemeChar c then go (c :: acc) cs
      else none

/-- Characters that terminate the authority component. -/
def isAuthorityEnd (c : Char) : Bool :=
  c = '/' ∨ c = '\\' ∨ c = '?' ∨ c = '#'

/-- Code points forbidden in a host. -/
def isForbiddenHostChar (c : Char) : Bool :=
  c.toNat = 0 ∨ c = ' ' ∨ c = '#' ∨ c = '/' ∨ c = ':' ∨ c = '<' ∨
  c = '>' ∨ c = '?' ∨ c = '@' ∨ c = '[' ∨ c = '\\' ∨ c = ']' ∨
  c = '^' ∨ c = '|'

/-- Drops the userinfo part of an authority: the host starts after the
last `'@'`, if any. -/
def afterLastAt (cs : List Char) : List Char :=
  if cs.contains '@' then (cs.reverse.takeWhile (fun c => c ≠ '@')).reverse
  else cs

/-- Validates the authority of a special-scheme URL (following the
colon, leading slashes already skipped): the hostname, taken up to the
port separator, must be non-empty and free of forbidden host
characters, and the port must be all digits. -/
def specialHostOk (rest : List Char) : Bool :=
  let authority := rest.takeWhile (fun c => ¬ isAuthorityEnd c)
  let host := afterLastAt authority
  let hostname := host.takeWhile (fun c => c ≠ ':')
  let port := (host.dropWhile (fun c => c ≠ ':')).drop 1
  hostname ≠ [] ∧ hostname.all (fun c => ¬ isForbiddenHostChar c) ∧
    port.all Char.isDigit

/-- Model of the success predicate of the WHATWG `new URL(url)`
constructor with no base URL, as used by `createLink` for validation:
after stripping, the input must carry a scheme; a special scheme other
than `file` (`http`, `https`, `ws`, `wss`, `ftp`) additionally requires
a valid non-empty host; any other scheme parses with an opaque path and
always succeeds (so `ftp:` and `javascript:` URLs parse). `new URL` is
a platform builtin, not repository code; this embedding covers the
shapes of input the repository's tests exercise. -/
def urlParseOk (url : String) : Bool :=
  let trimmed :=
    ((url.data.dropWhile isC0OrSpace).reverse.dropWhile isC0OrSpace).reverse
  let cs := trimmed.filter (fun c => ¬ isUrlStrippable c)
  match splitScheme cs with
  | none => false
  | some (scheme, rest) =>
    let s := String.mk (scheme.map Char.toLower)
    if s = "file" then true
    else if s = "http" ∨ s = "https" ∨ s = "ws" ∨ s = "wss" ∨ s = "ftp" then
      specialHostOk (rest.dropWhile (fun c => c = '/' ∨ c = '\\'))
    else true

/-- Credentials record as stored by the config module: a `type` tag plus
the fields the client constructor reads. -/
structure Credentials where
  type : String
  username : String := ""
  password : String := ""
  token : String := ""
deriving DecidableEq, Repr

/-- `createClient(credentials)` of lib/client.js: `basic` and `jwt`
credentials yield a client (the client's call behaviour is modelled
separately by the `Client` oracle, so the success value is `Unit`);
`anonymous` credentials throw the no-authentication `UploadError`, and
any other type throws the invalid-credentials `UploadError`. -/
def createClient (credentials : Credentials) : Except JsError Unit :=
  if credentials.type = "basic" then .ok ()
  else if credentials.type = "jwt" then .ok ()
  else if credentials.type = "anonymous" then
    .error (.uploadError
      "No authentication configured. Use \"drplr config\" to set up credentials." none)
  else .error (.uploadError "Invalid authentication credentials" none)

/-- The creation payload built by `createLink`:
`{type: 'LINK', content: url}`, plus `title` when the option is truthy. -/
def mkLinkDropOptions (url : String) (options : Options) : CreateOptions :=
  { type := "LINK"
    content := url
    title := if truthy options.title then options.title else none }

/-- `createLink(url, credentials, options)` of lib/commands/link.js.
The client is constructed first (its error propagates uncaught); then
the URL is validated with `new URL`, a failure raising
`UploadError('Invalid URL format: ' + url)`; then one `drops.create`
call is made and the result passed to `handlePrivateDropCreation`; any
error from that `try` block is classified with operation name
`'Link creation'` (an `UploadError` passes through `parseApiError`
unchanged). -/
def createLink (client : Client) (url : String)
    (credentials : Credentials) (options : Options) :
    Except JsError Drop × List ApiCall :=
  match createClient credentials with
  | .error e => (.error e, [])
  | .ok _ =>
    if urlParseOk url then
      let dropOptions := mkLinkDropOptions url options
      match client.createResp dropOptions with
      | .error e =>
        (.error (parseApiError e "Link creation"), [ApiCall.create dropOptions])
      | .ok result =>
        match handlePrivateDropCreation client result options with
        | (.ok d, calls) => (.ok d, ApiCall.create dropOptions :: calls)
        | (.error e, calls) =>
          (.error (parseApiError e "Link creation"),
           ApiCall.create dropOptions :: calls)
    else
      (.error (.uploadError ("Invalid URL format: " ++ url) none), [])

/-- Fixture: a freshly created drop as the service reports it (public,
title "A"). -/
def demoDrop : Drop :=
  { code := "abc123", privacy := some "PUBLIC", title := some "A"
    shortlink := some "https://d.pr/i/abc123" }

/-- Fixture: the drop the service's update response reports (private,
title "B", differing from the created drop's title). -/
def demoUpdated : Drop :=
  { code := "abc123", privacy := some "PRIVATE", title := some "B"
    shortlink := some "https://d.pr/i/abc123" }

/-- Fixture: a raw HTTP 403 error from the SDK. -/
def demoError : JsError :=
  .raw (some { data := some { errors := none, message := some "Forbidden" }
               status := some 403, statusText := "Forbidden" })
    "Request failed with status code 403"

/-- Fixture client: every call succeeds; update calls answer
`demoUpdated`. -/
def okClient : Client :=
  { createResp := fun _ => .ok demoDrop
    updateResp := fun _ _ => .ok demoUpdated
    deleteResp := fun _ => .ok () }

/-- Fixture client: create succeeds, update and delete both fail with
`demoError` (so swallowing of delete errors is exercised). -/
def failClient : Client :=
  { createResp := fun _ => .ok demoDrop
    updateResp := fun _ _ => .error demoError
    deleteResp := fun _ => .error demoError }

/-- Recognizes `drops.delete` calls in a trace. -/
def isDeleteCall : ApiCall → Bool
  | .delete _ => true
  | _ => false

/-- Recognizes `drops.update` calls in a trace. -/
def isUpdateCall : ApiCall → Bool
  | .update _ _ => true
  | _ => false

/-- Helper: on a raw (not-yet-classified) error the classifier always
produces an `UploadError` with `statusCode` null, whichever branch
renders the message. -/
theorem parseApiError_raw_isUpload (response : Option ErrResponse)
    (message operation : String) :
    ∃ m, parseApiError (.raw response message) operation =
      .uploadError m none := by
  simp only [parseApiError]
  cases hre : responseErrors response with
  | some p => cases p <;> exact ⟨_, rfl⟩
  | none =>
    cases hrm : responseMessage response with
    | some m => exact ⟨_, rfl⟩
    | none =>
      cases hrs : responseStatus response with
      | some st => exact ⟨_, rfl⟩
      | none => exact ⟨_, rfl⟩

/-- C8: the error classifier is idempotent — for every error and
operation name, classifying an already-classified error returns the very
same value, with no re-wrapping and no accumulated
"failed: failed:" prefix. -/
theorem parseApiError_idempotent (e : JsError) (operation : String) :
    parseApiError (parseApiError e operation) operation =
      parseApiError e operation := by
  cases e with
  | uploadError m sc => rfl
  | raw response message =>
    obtain ⟨m, hm⟩ := parseApiError_raw_isUpload response message operation
    rw [hm]
    rfl

/-- C9: the classifier is total over array-format validation entries
that lack a `messages` array — an entry `{field}` with no messages is
rendered as the line `"<field>: Invalid value"` inside the
`"<operation> failed:"` message, rather than failing. -/
theorem parseApiError_missing_messages_total
    (operation field message : String) (entries : List ValidationEntry)
    (hmem : ValidationEntry.mk field none ∈ entries) :
    parseApiError
        (.raw (some { data := some { errors := some (.arrayFormat entries)
                                     message := none }
                      status := none, statusText := "" }) message)
        operation =
      .uploadError
        (operation ++ " failed:" ++
          String.join ((entries.map renderValidationEntry).flatten)) none ∧
    ("\n    * " ++ field ++ ": Invalid value") ∈
      (entries.map renderValidationEntry).flatten := by
  refine ⟨rfl, ?_⟩
  have hline : ("\n    * " ++ field ++ ": Invalid value") ∈
      renderValidationEntry ⟨field, none⟩ := by
    simp only [renderValidationEntry, Option.getD, List.map]
    have hassoc : "\n    * " ++ field ++ ": " ++ stripQuotedLead "Invalid value" =
        "\n    * " ++ field ++ ": Invalid value" := by
      rw [String.append_assoc]
      congr 1
    rw [hassoc]
    exact List.mem_singleton.mpr rfl
  exact List.mem_flatten.mpr
    ⟨renderValidationEntry ⟨field, none⟩, List.mem_map_of_mem _ hmem, hline⟩

/-- Witness for C9 at a concrete validation payload. -/
theorem parseApiError_missing_messages_total_witness :
    ValidationEntry.mk "password" none ∈ [ValidationEntry.mk "password" none] ∧
    (parseApiError
        (.raw (some { data := some
                        { errors := some (.arrayFormat [ValidationEntry.mk "password" none])
                          message := none }
                      status := none, statusText := "" }) "boom")
        "Upload" =
      .uploadError
        ("Upload" ++ " failed:" ++
          String.join (([ValidationEntry.mk "password" none].map renderValidationEntry).flatten)) none ∧
    ("\n    * " ++ "password" ++ ": Invalid value") ∈
      ([ValidationEntry.mk "password" none].map renderValidationEntry).flatten) :=
  ⟨List.mem_singleton.mpr rfl,
   parseApiError_missing_messages_total "Upload" "password" "boom"
     [ValidationEntry.mk "password" none] (List.mem_singleton.mpr rfl)⟩

/-- Outcome predicate for the privacy invariant: after reconciliation of
a PRIVATE intent, either the returned drop carries `privacy = PRIVATE`
(so never PUBLIC), or an error is raised and the call trace contains a
delete of the created drop. -/
def privateOutcomeOk (client : Client) (result : Drop)
    (options : Options) : Prop :=
  match handlePrivateDropCreation client result options with
  | (.ok d, _) => d.privacy = some "PRIVATE"
  | (.error _, calls) => ApiCall.delete result.code ∈ calls

/-- C1: for every PRIVATE intent, the engine never returns a drop whose
privacy is PUBLIC — either the corrective update succeeded and the
returned drop has `privacy = PRIVATE`, or the engine raises after
issuing a delete of the created drop. -/
theorem handlePrivateDropCreation_no_public_result (client : Client)
    (result : Drop) (options : Options)
    (hpriv : options.privacy = some "PRIVATE") :
    privateOutcomeOk client result options := by
  cases hu : client.updateResp result.code
      (mkUpdateData { privacy := some "PRIVATE", password := options.password }) with
  | ok r =>
    simp [privateOutcomeOk, handlePrivateDropCreation, updateDropPrivacy,
      hpriv, hu]
  | error e =>
    cases hd : client.deleteResp result.code <;>
      simp [privateOutcomeOk, handlePrivateDropCreation, updateDropPrivacy,
        safeDeleteDrop, hpriv, hu, hd]

/-- Witness for C1 at a concrete PRIVATE intent. -/
theorem handlePrivateDropCreation_no_public_result_witness :
    ({ privacy := some "PRIVATE" } : Options).privacy = some "PRIVATE" ∧
    privateOutcomeOk okClient demoDrop { privacy := some "PRIVATE" } :=
  ⟨rfl, handlePrivateDropCreation_no_public_result okClient demoDrop
    { privacy := some "PRIVATE" } rfl⟩

/-- C2: for every PRIVATE intent whose corrective update fails, the
engine's trace is exactly one update call followed by one delete call of
the created drop's code (so the drop is deleted exactly once), and the
surfaced error is the original classified update error. The client's
delete outcome is arbitrary — `client.deleteResp` is unconstrained and
may itself fail — so any delete-path error is swallowed, never
propagated. -/
theorem handlePrivateDropCreation_failure_cleanup (client : Client)
    (result : Drop) (options : Options) (e : JsError)
    (hpriv : options.privacy = some "PRIVATE")
    (hupd : client.updateResp result.code
        (mkUpdateData { privacy := some "PRIVATE", password := options.password }) =
      .error e) :
    handlePrivateDropCreation client result options =
      (.error (parseApiError e "Privacy update"),
       [ApiCall.update result.code
          (mkUpdateData { privacy := some "PRIVATE", password := options.password }),
        ApiCall.delete result.code]) ∧
    (handlePrivateDropCreation client result options).2.countP
      (fun c => isDeleteCall c) = 1 := by
  have hmain : handlePrivateDropCreation client result options =
      (.error (parseApiError e "Privacy update"),
       [ApiCall.update result.code
          (mkUpdateData { privacy := some "PRIVATE", password := options.password }),
        ApiCall.delete result.code]) := by
    cases hd : client.deleteResp result.code <;>
      simp [handlePrivateDropCreation, updateDropPrivacy, safeDeleteDrop,
        hpriv, hupd, hd]
  refine ⟨hmain, ?_⟩
  rw [hmain]
  simp [List.countP_cons, isDeleteCall]

/-- Witness for C2: concrete failing update with a failing delete. -/
theorem handlePrivateDropCreation_failure_cleanup_witness :
    ({ privacy := some "PRIVATE" } : Options).privacy = some "PRIVATE" ∧
    failClient.updateResp demoDrop.code
      (mkUpdateData { privacy := some "PRIVATE"
                      password := ({ privacy := some "PRIVATE" } : Options).password }) =
      .error demoError ∧
    (handlePrivateDropCreation failClient demoDrop { privacy := some "PRIVATE" } =
      (.error (parseApiError demoError "Privacy update"),
       [ApiCall.update demoDrop.code
          (mkUpdateData { privacy := some "PRIVATE"
                          password := ({ privacy := some "PRIVATE" } : Options).password }),
        ApiCall.delete demoDrop.code]) ∧
    (handlePrivateDropCreation failClient demoDrop
        { privacy := some "PRIVATE" }).2.countP
      (fun c => isDeleteCall c) = 1) :=
  ⟨rfl, rfl,
   handlePrivateDropCreation_failure_cleanup failClient demoDrop
     { privacy := some "PRIVATE" } demoError rfl rfl⟩

/-- C3: for every PRIVATE intent whose corrective update succeeds, the
engine returns the created drop with `privacy` set to PRIVATE and the
trace holds the single update call — whatever drop `r` (with whatever
privacy value) the raw update response reports. -/
theorem handlePrivateDropCreation_success_forces_private (client : Client)
    (result : Drop) (options : Options) (r : Drop)
    (hpriv : options.privacy = some "PRIVATE")
    (hupd : client.updateResp result.code
        (mkUpdateData { privacy := some "PRIVATE", password := options.password }) =
      .ok r) :
    handlePrivateDropCreation client result options =
      (.ok { result with privacy := some "PRIVATE" },
       [ApiCall.update result.code
          (mkUpdateData { privacy := some "PRIVATE", password := options.password })]) := by
  simp [handlePrivateDropCreation, updateDropPrivacy, hpriv, hupd]

/-- Witness for C3: the update response reports `demoUpdated`, yet the
result is the created drop forced private. -/
theorem handlePrivateDropCreation_success_forces_private_witness :
    ({ privacy := some "PRIVATE" } : Options).privacy = some "PRIVATE" ∧
    okClient.updateResp demoDrop.code
      (mkUpdateData { privacy := some "PRIVATE"
                      password := ({ privacy := some "PRIVATE" } : Options).password }) =
      .ok demoUpdated ∧
    handlePrivateDropCreation okClient demoDrop { privacy := some "PRIVATE" } =
      (.ok { demoDrop with privacy := some "PRIVATE" },
       [ApiCall.update demoDrop.code
          (mkUpdateData { privacy := some "PRIVATE"
                          password := ({ privacy := some "PRIVATE" } : Options).password })]) :=
  ⟨rfl, rfl,
   handlePrivateDropCreation_success_forces_private okClient demoDrop
     { privacy := some "PRIVATE" } demoUpdated rfl rfl⟩

/-- C4: for every PUBLIC intent with no (truthy) password, the engine
issues no network call at all (empty trace, hence zero update calls) and
returns the created drop unchanged. -/
theorem handlePrivateDropCreation_public_no_calls (client : Client)
    (result : Drop) (options : Options)
    (hpub : options.privacy = some "PUBLIC")
    (hpw : truthy options.password = false) :
    handlePrivateDropCreation client result options = (.ok result, []) := by
  simp [handlePrivateDropCreation, hpub, hpw]

/-- Witness for C4 at a concrete plain-public intent. -/
theorem handlePrivateDropCreation_public_no_calls_witness :
    ({ privacy := some "PUBLIC" } : Options).privacy = some "PUBLIC" ∧
    truthy ({ privacy := some "PUBLIC" } : Options).password = false ∧
    handlePrivateDropCreation failClient demoDrop { privacy := some "PUBLIC" } =
      (.ok demoDrop, []) :=
  ⟨rfl, rfl,
   handlePrivateDropCreation_public_no_calls failClient demoDrop
     { privacy := some "PUBLIC" } rfl rfl⟩

/-- C5: for every PUBLIC intent with a password set whose password-only
update fails, the engine raises the classified update error and its
trace is the single update call — no delete is ever issued. -/
theorem handlePrivateDropCreation_public_password_failure_no_delete
    (client : Client) (result : Drop) (options : Options) (e : JsError)
    (hpub : options.privacy = some "PUBLIC")
    (hpw : truthy options.password = true)
    (hupd : client.updateResp result.code
        (mkUpdateData { password := options.password }) = .error e) :
    handlePrivateDropCreation client result options =
      (.error (parseApiError e "Privacy update"),
       [ApiCall.update result.code
          (mkUpdateData { password := options.password })]) ∧
    (handlePrivateDropCreation client result options).2.countP
      (fun c => isDeleteCall c) = 0 := by
  have hmain : handlePrivateDropCreation client result options =
      (.error (parseApiError e "Privacy update"),
       [ApiCall.update result.code
          (mkUpdateData { password := options.password })]) := by
    simp [handlePrivateDropCreation, updateDropPrivacy, hpub, hpw, hupd]
  refine ⟨hmain, ?_⟩
  rw [hmain]
  simp [List.countP_cons, isDeleteCall]

/-- Witness for C5: a public password-protected intent with a failing
update; the trace shows no delete. -/
theorem handlePrivateDropCreation_public_password_failure_no_delete_witness :
    ({ privacy := some "PUBLIC", password := some "pw1234" } : Options).privacy =
      some "PUBLIC" ∧
    truthy ({ privacy := some "PUBLIC", password := some "pw1234" } : Options).password =
      true ∧
    failClient.updateResp demoDrop.code
      (mkUpdateData
        { password := ({ privacy := some "PUBLIC", password := some "pw1234" } : Options).password }) =
      .error demoError ∧
    (handlePrivateDropCreation failClient demoDrop
        { privacy := some "PUBLIC", password := some "pw1234" } =
      (.error (parseApiError demoError "Privacy update"),
       [ApiCall.update demoDrop.code
          (mkUpdateData
            { password := ({ privacy := some "PUBLIC", password := some "pw1234" } : Options).password })]) ∧
    (handlePrivateDropCreation failClient demoDrop
        { privacy := some "PUBLIC", password := some "pw1234" }).2.countP
      (fun c => isDeleteCall c) = 0) :=
  ⟨rfl, rfl, rfl,
   handlePrivateDropCreation_public_password_failure_no_delete failClient
     demoDrop { privacy := some "PUBLIC", password := some "pw1234" }
     demoError rfl rfl rfl⟩

/-- C7 counterexample: with the fixture client the corrective update
succeeds and its response (`demoUpdated`) reports title "B", but the
engine returns the created drop's title "A" — the update response's
title is not carried over, contradicting the claim that the returned
result carries the update response's title when it differs. -/
theorem handlePrivateDropCreation_title_cex :
    okClient.updateResp demoDrop.code
      (mkUpdateData { privacy := some "PRIVATE", password := none }) =
      .ok demoUpdated ∧
    demoUpdated.title = some "B" ∧
    demoDrop.title = some "A" ∧
    (handlePrivateDropCreation okClient demoDrop
        { privacy := some "PRIVATE" }).1 =
      .ok { demoDrop with privacy := some "PRIVATE" } ∧
    ({ demoDrop with privacy := some "PRIVATE" } : Drop).title = some "A" ∧
    ¬ ({ demoDrop with privacy := some "PRIVATE" } : Drop).title =
      demoUpdated.title :=
  ⟨rfl, rfl, rfl, rfl, rfl, by decide⟩

/-- C7 amended: on a successful corrective update that included privacy,
the engine discards the service's update response entirely and returns
the created drop object with `privacy` force-set to PRIVATE — in
particular the returned title is the created drop's title, not the
update response's. -/
theorem handlePrivateDropCreation_title_from_created (client : Client)
    (result : Drop) (options : Options) (r : Drop)
    (hpriv : options.privacy = some "PRIVATE")
    (hupd : client.updateResp result.code
        (mkUpdateData { privacy := some "PRIVATE", password := options.password }) =
      .ok r) :
    (handlePrivateDropCreation client result options).1 =
      .ok { result with privacy := some "PRIVATE" } := by
  simp [handlePrivateDropCreation, updateDropPrivacy, hpriv, hupd]

/-- Witness for the amended C7: the update response has title "B", the
returned drop keeps the created title "A". -/
theorem handlePrivateDropCreation_title_from_created_witness :
    ({ privacy := some "PRIVATE" } : Options).privacy = some "PRIVATE" ∧
    okClient.updateResp demoDrop.code
      (mkUpdateData { privacy := some "PRIVATE"
                      password := ({ privacy := some "PRIVATE" } : Options).password }) =
      .ok demoUpdated ∧
    (handlePrivateDropCreation okClient demoDrop
        { privacy := some "PRIVATE" }).1 =
      .ok { demoDrop with privacy := some "PRIVATE" } :=
  ⟨rfl, rfl,
   handlePrivateDropCreation_title_from_created okClient demoDrop
     { privacy := some "PRIVATE" } demoUpdated rfl rfl⟩

/-- C6: the repository's own test suite
(test/lib/commands/link.test.js, "should validate URL format") expects
`ftp://example.com` and `javascript:` URLs to be rejected with
`Invalid URL format`, but `createLink` validates with the bare
`new URL(url)` constructor, which accepts any parseable scheme: at the
failing input `ftp://example.com` the link is created with no error,
while `not-a-url` is indeed rejected with an error referencing the
literal input. -/
theorem createLink_scheme_allowlist_bug :
    urlParseOk "ftp://example.com" = true ∧
    createLink okClient "ftp://example.com" { type := "jwt" } {} =
      (.ok demoDrop,
       [ApiCall.create (mkLinkDropOptions "ftp://example.com" {})]) ∧
    urlParseOk "javascript:alert(1)" = true ∧
    (createLink okClient "not-a-url" { type := "jwt" } {}).1 =
      .error (.uploadError "Invalid URL format: not-a-url" none) :=
  ⟨by decide, rfl, by decide, rfl⟩

/-- C10: when the URL argument does not parse, the error `createLink`
raises is decided by `createClient` first — anonymous credentials raise
the no-authentication error and unrecognized credentials the
invalid-credentials error (never the InvalidURL error); only when the
client construction succeeds (basic or jwt credentials) is the
InvalidURL error raised. In all cases no network call is made. -/
theorem createLink_auth_before_url (client : Client) (url : String)
    (credentials : Credentials) (options : Options)
    (hurl : urlParseOk url = false) :
    createLink client url credentials options =
      (.error (match createClient credentials with
               | .error e => e
               | .ok _ => .uploadError ("Invalid URL format: " ++ url) none),
       []) := by
  cases hc : createClient credentials with
  | error e => simp [createLink, hc]
  | ok u => simp [createLink, hc, hurl]

/-- Witness for C10: invalid URL plus anonymous credentials yields the
authentication error, not the InvalidURL error. -/
theorem createLink_auth_before_url_witness :
    urlParseOk "not-a-url" = false ∧
    createLink okClient "not-a-url" { type := "anonymous" } {} =
      (.error (.uploadError
        "No authentication configured. Use \"drplr config\" to set up credentials." none),
       []) :=
  ⟨by decide,
   by
     rw [createLink_auth_before_url okClient "not-a-url"
       { type := "anonymous" } {} (by decide)]
     rfl⟩

end Drplr
